import Mathlib

/-!
# Verification of the astro-blog content-fetch and static-page-generation core

A shallow embedding of the repository's content pipeline:

* `src/lib/r2.ts` — the fetch helpers (`getR2BaseUrl`, `getR2Url`,
  `fetchAllBlogs`, `fetchBlog`, `fetchCategoryIndex`, `fetchCategory`,
  `fetchAllCategories`);
* `src/pages/index.astro` — the listing page (cards and the
  "No blog posts found." placeholder);
* `src/pages/blog/[slug].astro` — `getStaticPaths` and the detail-page
  template.

JSON values are modelled by the inductive `Json`; an HTTP exchange is
modelled by an oracle `String → Response` mapping a request address to
the response the network would give, so that one call of a fetch helper
performs exactly one oracle lookup.  JavaScript's loose semantics are
kept where the code relies on them: truthiness (`jsTruthy`), property
access on a missing field giving `undefined` (`Option Json` with
`none`), and template-literal string coercion (`jsToString`,
`jsFieldToString`).  Exceptions become `Except Err`; `Promise.all` over
a mapped list becomes `promiseAll`, which fails whenever any element
fails and otherwise returns results in input order.

`fetchAllBlogs` and `fetchBlog` additionally return the list of request
addresses they actually issued, so that "fails before any network
request" is expressible as an empty request log.
-/

namespace AstroBlog

/-- A decoded JSON value (`JSON.parse` result).  Objects keep field
order; lookups take the first binding, which is what a parsed JSON
object gives. -/
inductive Json where
  | null : Json
  | bool (b : Bool) : Json
  | num (n : Int) : Json
  | str (s : String) : Json
  | arr (xs : List Json) : Json
  | obj (fields : List (String × Json)) : Json

/-- JavaScript truthiness of a value: `null`, `false`, `0` and `""` are
falsy; every array and object is truthy. -/
def jsTruthy : Json → Bool
  | .null => false
  | .bool b => b
  | .num n => n != 0
  | .str s => s != ""
  | .arr _ => true
  | .obj _ => true

/-- Property access `j.k`: a named field exists only on an object;
`none` plays the role of JavaScript's `undefined`. -/
def getField : Json → String → Option Json
  | .obj fields, k => fields.lookup k
  | _, _ => none

/-- Truthiness of a property-access result: `undefined` is falsy. -/
def jsTruthyOpt : Option Json → Bool
  | none => false
  | some j => jsTruthy j

/-- `Array.isArray` applied to a property-access result. -/
def isArray : Option Json → Bool
  | some (.arr _) => true
  | _ => false

/-- `data.items` viewed as an array when it is one (the shape accepted
by `fetchAllBlogs`): `jsTruthyOpt o && isArray o` holds exactly when
`asArray o = some xs`, because a JavaScript array is always truthy. -/
def asArray : Option Json → Option (List Json)
  | some (.arr xs) => some xs
  | _ => none

/-- String coercion used by template literals: scalars print
themselves, arrays join their coerced elements with commas
(`Array.prototype.toString`), objects print `[object Object]`. -/
def jsToString : Json → String
  | .null => "null"
  | .bool b => if b then "true" else "false"
  | .num n => toString n
  | .str s => s
  | .arr xs => String.intercalate "," (xs.attach.map fun x => jsToString x.1)
  | .obj _ => "[object Object]"
decreasing_by
  simp only [Json.arr.sizeOf_spec]
  have h := List.sizeOf_lt_of_mem x.2
  omega

/-- Template-literal coercion of a property access: a missing field
interpolates as the string `undefined`. -/
def jsFieldToString : Option Json → String
  | none => "undefined"
  | some j => jsToString j

/-- An HTTP response: status, status text, and the JSON value the body
decodes to (`none` when `response.json()` would throw). -/
structure Response where
  status : Nat
  statusText : String
  body : Option Json

/-- `response.ok`: status in the 200–299 range. -/
def responseOk (r : Response) : Bool :=
  200 ≤ r.status && r.status ≤ 299

/-- The network, as a pure oracle from request address to response. -/
def Oracle : Type := String → Response

/-- The error taxonomy of the core.  The code throws plain `Error`
values; the constructors here classify them by the message each throw
site builds: the configuration check in `getR2BaseUrl`, the
`response.ok` checks (carrying the status), the index-shape check in
`fetchAllBlogs`, a `response.json()` decode failure, and the runtime
`TypeError` of calling `.map` on a non-array. -/
inductive Err where
  | configError (message : String) : Err
  | fetchError (status : Nat) (message : String) : Err
  | formatError (message : String) : Err
  | jsonDecodeError (message : String) : Err
  | typeError (message : String) : Err

/-- Build-time environment: `import.meta.env.PUBLIC_R2_BASE_URL`
(absent ↦ `none`) and `import.meta.env.BASE_URL` (always defined by the
framework; the deployment base path prefix). -/
structure Env where
  PUBLIC_R2_BASE_URL : Option String
  BASE_URL : String

/-- `baseUrl.replace(/\/$/, '')`: removes one trailing slash when the
string ends in one. -/
def stripTrailingSlash (s : String) : String :=
  match s.data.getLast? with
  | some '/' => String.mk s.data.dropLast
  | _ => s

/-- `getR2BaseUrl` (src/lib/r2.ts:18-24): reads
`PUBLIC_R2_BASE_URL`, throws when it is absent or empty (both falsy),
and strips a trailing slash. -/
def getR2BaseUrl (env : Env) : Except Err String :=
  match env.PUBLIC_R2_BASE_URL with
  | none => .error (.configError "PUBLIC_R2_BASE_URL environment variable is not set")
  | some baseUrl =>
    if baseUrl = "" then
      .error (.configError "PUBLIC_R2_BASE_URL environment variable is not set")
    else
      .ok (stripTrailingSlash baseUrl)

/-- `getR2Url` (src/lib/r2.ts:29-32): joins the stripped base and the
relative path with a single slash. -/
def getR2Url (env : Env) (path : String) : Except Err String :=
  match getR2BaseUrl env with
  | .error e => .error e
  | .ok baseUrl => .ok (baseUrl ++ "/" ++ path)

/-- `fetchAllBlogs` (src/lib/r2.ts:37-59).  Second component: the list
of request addresses actually issued (the `catch` block only logs and
rethrows, so it does not change the result).  The accepted shape is
`data && data.items && Array.isArray(data.items)`, i.e. `data` truthy
and `data.items` an array, in which case `data.items` is returned as-is
(the `as Blog[]` cast checks nothing); `total_items` is never
inspected. -/
def fetchAllBlogs (env : Env) (oracle : Oracle) :
    Except Err (List Json) × List String :=
  match getR2Url env "blogs/_index.json" with
  | .error e => (.error e, [])
  | .ok url =>
    let response := oracle url
    if !responseOk response then
      (.error (.fetchError response.status
        ("Failed to fetch blog index: " ++ toString response.status ++ " " ++
          response.statusText)), [url])
    else
      match response.body with
      | none => (.error (.jsonDecodeError "response body is not valid JSON"), [url])
      | some data =>
        match asArray (getField data "items"), jsTruthy data with
        | some items, true => (.ok items, [url])
        | _, _ => (.error (.formatError "Unexpected blog index format"), [url])

/-- `fetchBlog` (src/lib/r2.ts:65-81): one GET of
`blogs/<slug>.json`; the decoded body is returned unchanged (the
`: Blog` annotation checks nothing at runtime).  Second component: the
request addresses issued. -/
def fetchBlog (env : Env) (oracle : Oracle) (slug : String) :
    Except Err Json × List String :=
  match getR2Url env ("blogs/" ++ slug ++ ".json") with
  | .error e => (.error e, [])
  | .ok url =>
    let response := oracle url
    if !responseOk response then
      (.error (.fetchError response.status
        ("Failed to fetch blog \"" ++ slug ++ "\": " ++
          toString response.status ++ " " ++ response.statusText)), [url])
    else
      match response.body with
      | none => (.error (.jsonDecodeError "response body is not valid JSON"), [url])
      | some blog => (.ok blog, [url])

/-- `fetchCategoryIndex` (src/lib/r2.ts:86-102): returns the decoded
body unchanged (the `: string[]` annotation checks nothing). -/
def fetchCategoryIndex (env : Env) (oracle : Oracle) : Except Err Json :=
  match getR2Url env "categories/_index.json" with
  | .error e => .error e
  | .ok url =>
    let response := oracle url
    if !responseOk response then
      .error (.fetchError response.status
        ("Failed to fetch category index: " ++ toString response.status ++ " " ++
          response.statusText))
    else
      match response.body with
      | none => .error (.jsonDecodeError "response body is not valid JSON")
      | some slugs => .ok slugs

/-- `fetchCategory` (src/lib/r2.ts:107-123): one GET of
`categories/<slug>.json`; the decoded body is returned unchanged. -/
def fetchCategory (env : Env) (oracle : Oracle) (slug : String) : Except Err Json :=
  match getR2Url env ("categories/" ++ slug ++ ".json") with
  | .error e => .error e
  | .ok url =>
    let response := oracle url
    if !responseOk response then
      .error (.fetchError response.status
        ("Failed to fetch category \"" ++ slug ++ "\": " ++
          toString response.status ++ " " ++ response.statusText))
    else
      match response.body with
      | none => .error (.jsonDecodeError "response body is not valid JSON")
      | some category => .ok category

/-- `Promise.all(xs.map f)`: fails whenever any element fails,
otherwise returns all results in input order. -/
def promiseAll (f : α → Except Err β) : List α → Except Err (List β)
  | [] => .ok []
  | x :: xs =>
    match f x, promiseAll f xs with
    | .ok y, .ok ys => .ok (y :: ys)
    | .error e, _ => .error e
    | .ok _, .error e => .error e

/-- `fetchAllCategories` (src/lib/r2.ts:128-132): fetches the category
index, then `Promise.all(slugs.map(slug => fetchCategory(slug)))`.
When the decoded index is not an array, `slugs.map` throws a
`TypeError`; each element is coerced to a string by the template
literal inside `fetchCategory`'s address. -/
def fetchAllCategories (env : Env) (oracle : Oracle) : Except Err (List Json) :=
  match fetchCategoryIndex env oracle with
  | .error e => .error e
  | .ok (.arr slugs) => promiseAll (fun s => fetchCategory env oracle (jsToString s)) slugs
  | .ok _ => .error (.typeError "slugs.map is not a function")

/-! ## The page templates -/

/-- Astro text interpolation `{expr}`: `undefined`, `null` and booleans
render as nothing (JSX expression semantics); other scalars render via
string coercion. -/
def renderNode : Option Json → String
  | none => ""
  | some .null => ""
  | some (.bool _) => ""
  | some j => jsToString j

/-- `set:html={expr}`: `undefined` and `null` render as nothing; a
string is inserted as raw markup. -/
def renderHtml : Option Json → String
  | none => ""
  | some .null => ""
  | some j => jsToString j

/-- One card of the listing page's blog grid
(src/pages/index.astro): a linked title `{blog.name}`, the summary
`{blog.summary}`, and the "Read more →" link; both hrefs are the
template literal `${base}/blog/${blog.slug}`. -/
structure Card where
  titleHref : String
  titleText : String
  summary : String
  readMoreHref : String

/-- The listing page (src/pages/index.astro): one card per element of
`blogs`, in order, and the `blogs.length === 0 && <p>` branch. -/
structure ListingPage where
  cards : List Card
  emptyMessage : Option String

def renderCard (base : String) (blog : Json) : Card :=
  { titleHref := base ++ "/blog/" ++ jsFieldToString (getField blog "slug")
    titleText := renderNode (getField blog "name")
    summary := renderNode (getField blog "summary")
    readMoreHref := base ++ "/blog/" ++ jsFieldToString (getField blog "slug") }

def renderListing (base : String) (blogs : List Json) : ListingPage :=
  { cards := blogs.map (renderCard base)
    emptyMessage := if blogs.length = 0 then some "No blog posts found." else none }

/-- One element of the array `getStaticPaths` returns:
`{ params: { slug }, props: { blog } }`.  The route parameter is
coerced to a string, as Astro does when it builds the output path. -/
structure StaticPath where
  params_slug : String
  props_blog : Json

/-- The async arrow function mapped over the index entries inside
`getStaticPaths`: fetch the full blog for `indexEntry.slug` and pair it
with the route parameter. -/
def staticPathFor (env : Env) (oracle : Oracle) (indexEntry : Json) : Except Err StaticPath :=
  match (fetchBlog env oracle (jsFieldToString (getField indexEntry "slug"))).1 with
  | .error e => .error e
  | .ok fullBlog =>
    .ok { params_slug := jsFieldToString (getField indexEntry "slug")
          props_blog := fullBlog }

/-- `getStaticPaths` (src/pages/blog/[slug].astro): fetch the index,
then `Promise.all` over the entries, building one static path per
entry. -/
def getStaticPaths (env : Env) (oracle : Oracle) : Except Err (List StaticPath) :=
  match (fetchAllBlogs env oracle).1 with
  | .error e => .error e
  | .ok blogIndex => promiseAll (staticPathFor env oracle) blogIndex

/-- The rendered detail page (src/pages/blog/[slug].astro): the
`<title>`, the `<h1>{blog.name}</h1>` heading, the
`set:html={blog.body}` article body, and the two links to the listing
(`<a href={base}>` in the header and the back link). -/
structure DetailPage where
  htmlTitle : String
  heading : String
  bodyHtml : String
  headerHomeHref : String
  backHref : String

def renderDetail (base : String) (blog : Json) : DetailPage :=
  { htmlTitle := renderNode (getField blog "name") ++ " - Blog"
    heading := renderNode (getField blog "name")
    bodyHtml := renderHtml (getField blog "body")
    headerHomeHref := base
    backHref := base }

/-- The address at which Astro emits the page that
`src/pages/blog/[slug].astro` generates for route parameter `slug`,
with the deployment base prefix folded in: the tutorial's build log
shows `/blog/<slug>/index.html`, served at `<base>/blog/<slug>`. -/
def detailPagePath (base slug : String) : String :=
  base ++ "/blog/" ++ slug

/-- The address at which Astro emits `src/pages/index.astro`: the site
root under the deployment base prefix (`/index.html`). -/
def listingPagePath (base : String) : String :=
  base

/-- The listing page as built: `src/pages/index.astro` awaits
`fetchAllBlogs()` at build time and renders with
`base = import.meta.env.BASE_URL`; a thrown error aborts the build of
the page. -/
def indexPage (env : Env) (oracle : Oracle) : Except Err ListingPage :=
  match (fetchAllBlogs env oracle).1 with
  | .error e => .error e
  | .ok blogs => .ok (renderListing env.BASE_URL blogs)

/-- The detail pages as built: each static path is rendered at
`detailPagePath` with the blog passed through `props`. -/
def blogSlugPages (env : Env) (oracle : Oracle) :
    Except Err (List (String × DetailPage)) :=
  match getStaticPaths env oracle with
  | .error e => .error e
  | .ok paths =>
    .ok (paths.map fun p =>
      (detailPagePath env.BASE_URL p.params_slug, renderDetail env.BASE_URL p.props_blog))

/-- The whole generation step: the listing page plus every detail page.
Any error aborts the build with no pages emitted. -/
def buildSite (env : Env) (oracle : Oracle) :
    Except Err (ListingPage × List (String × DetailPage)) :=
  match indexPage env oracle, blogSlugPages env oracle with
  | .ok listing, .ok details => .ok (listing, details)
  | .error e, _ => .error e
  | .ok _, .error e => .error e

/-! ## Helper lemmas -/

theorem promiseAll_ok_forall₂ {α β : Type} {f : α → Except Err β} :
    ∀ {xs : List α} {ys : List β}, promiseAll f xs = .ok ys →
      List.Forall₂ (fun x y => f x = .ok y) xs ys := by
  intro xs
  induction xs with
  | nil =>
    intro ys h
    simp only [promiseAll] at h
    cases h
    exact .nil
  | cons x xs ih =>
    intro ys h
    simp only [promiseAll] at h
    cases hfx : f x with
    | error e => rw [hfx] at h; cases h
    | ok y =>
      rw [hfx] at h
      cases hps : promiseAll f xs with
      | error e => rw [hps] at h; cases h
      | ok ys' =>
        rw [hps] at h
        cases h
        exact .cons hfx (ih hps)

theorem promiseAll_error_of_mem {α β : Type} {f : α → Except Err β} {x : α} {e : Err} :
    ∀ {xs : List α}, x ∈ xs → f x = .error e →
      ∃ e', promiseAll f xs = .error e' := by
  intro xs
  induction xs with
  | nil => intro hx; cases hx
  | cons a as ih =>
    intro hx hfx
    rcases List.mem_cons.mp hx with rfl | hmem
    · exact ⟨e, by simp only [promiseAll, hfx]⟩
    · cases hfa : f a with
      | error ea => exact ⟨ea, by simp only [promiseAll, hfa]⟩
      | ok ya =>
        obtain ⟨e', he'⟩ := ih hmem hfx
        exact ⟨e', by simp only [promiseAll, hfa, he']⟩

theorem forall₂_map_eq {α β γ : Type} {R : α → β → Prop} {f : α → γ} {g : β → γ}
    (hfg : ∀ x y, R x y → g y = f x) :
    ∀ {xs : List α} {ys : List β}, List.Forall₂ R xs ys → ys.map g = xs.map f := by
  intro xs ys h
  induction h with
  | nil => rfl
  | cons hxy _ ih => simp only [List.map, ih, hfg _ _ hxy]

theorem forall₂_mem_right {α β : Type} {R : α → β → Prop} :
    ∀ {xs : List α} {ys : List β}, List.Forall₂ R xs ys →
      ∀ y ∈ ys, ∃ x ∈ xs, R x y := by
  intro xs ys h
  induction h with
  | nil => intro y hy; cases hy
  | cons hxy htl ih =>
    intro y hy
    rcases List.mem_cons.mp hy with rfl | hmem
    · exact ⟨_, List.mem_cons_self _ _, hxy⟩
    · obtain ⟨x, hx, hR⟩ := ih y hmem
      exact ⟨x, List.mem_cons_of_mem _ hx, hR⟩

/-! ## Concrete fixtures

A small deployment used to witness the theorems: a configured base
address, an index of two posts, full documents for both, and a category
index of two categories.  Variants of the oracle exercise the failure
paths (missing `body` field, mismatched `slug`, HTTP 404). -/

def exEnv : Env :=
  { PUBLIC_R2_BASE_URL := some "https://cdn.example.com"
    BASE_URL := "/myblog" }

def entryOne : Json :=
  .obj [("slug", .str "first-post"), ("name", .str "First Post"),
        ("summary", .str "The first.")]

def entryTwo : Json :=
  .obj [("slug", .str "second-post"), ("name", .str "Second Post"),
        ("summary", .str "The second.")]

/-- An index whose `total_items` deliberately disagrees with
`items.length`: the code never checks it. -/
def goodIndex : Json :=
  .obj [("total_items", .num 3), ("items", .arr [entryOne, entryTwo])]

def blogOne : Json :=
  .obj [("slug", .str "first-post"), ("name", .str "First Post"),
        ("summary", .str "The first."), ("body", .str "<p>Hello</p>")]

def blogTwo : Json :=
  .obj [("slug", .str "second-post"), ("name", .str "Second Post"),
        ("summary", .str "The second."), ("body", .str "<p>World</p>")]

def catIndex : Json := .arr [.str "tech", .str "life"]

def catTech : Json := .obj [("slug", .str "tech"), ("name", .str "Tech")]

def catLife : Json := .obj [("slug", .str "life"), ("name", .str "Life")]

def ok200 (j : Json) : Response :=
  { status := 200, statusText := "OK", body := some j }

def notFound : Response :=
  { status := 404, statusText := "Not Found", body := none }

/-- A healthy upstream: index, both blog documents, category data. -/
def goodOracle : Oracle := fun url =>
  if url = "https://cdn.example.com/blogs/_index.json" then ok200 goodIndex
  else if url = "https://cdn.example.com/blogs/first-post.json" then ok200 blogOne
  else if url = "https://cdn.example.com/blogs/second-post.json" then ok200 blogTwo
  else if url = "https://cdn.example.com/categories/_index.json" then ok200 catIndex
  else if url = "https://cdn.example.com/categories/tech.json" then ok200 catTech
  else if url = "https://cdn.example.com/categories/life.json" then ok200 catLife
  else notFound

/-- An upstream whose item document lacks the required `body` field
(the index entry itself is served as the full document). -/
def missingBodyOracle : Oracle := fun url =>
  if url = "https://cdn.example.com/blogs/_index.json" then
    ok200 (.obj [("total_items", .num 1), ("items", .arr [entryOne])])
  else if url = "https://cdn.example.com/blogs/first-post.json" then ok200 entryOne
  else notFound

/-- A full document whose `slug` disagrees with the address it is
served at (`blogs/first-post.json`). -/
def renamedBlog : Json :=
  .obj [("slug", .str "renamed-post"), ("name", .str "First Post"),
        ("summary", .str "The first."), ("body", .str "<p>Hello</p>")]

/-- An upstream whose item document carries a different `slug` than the
one used to request it. -/
def wrongSlugOracle : Oracle := fun url =>
  if url = "https://cdn.example.com/blogs/_index.json" then
    ok200 (.obj [("total_items", .num 1), ("items", .arr [entryOne])])
  else if url = "https://cdn.example.com/blogs/first-post.json" then ok200 renamedBlog
  else notFound

/-- An upstream that serves the index but 404s every item document. -/
def missingItemOracle : Oracle := fun url =>
  if url = "https://cdn.example.com/blogs/_index.json" then ok200 goodIndex
  else notFound

/-- An upstream that 404s everything. -/
def allNotFoundOracle : Oracle := fun _ => notFound

/-! ## Shared facts about the embedding and the fixtures -/

theorem stripTrailingSlash_append_slash (b : String) :
    stripTrailingSlash (b ++ "/") = b := by
  cases b with
  | mk data => simp [stripTrailingSlash, String.data_append]

theorem stripTrailingSlash_eq_self {s : String} (h : s.data.getLast? ≠ some '/') :
    stripTrailingSlash s = s := by
  unfold stripTrailingSlash
  split
  · next heq => exact absurd heq h
  · rfl

theorem append_slash_ne_empty (b : String) : b ++ "/" ≠ "" := by
  intro h
  have : (b ++ "/").data = "".data := by rw [h]
  simp [String.data_append] at this

/-- What a successful `getStaticPaths` run contains: one entry per
index element in order, each carrying the coerced `slug` of its index
entry and the record `fetchBlog` returned for that slug. -/
theorem getStaticPaths_spec {env : Env} {oracle : Oracle} {blogs : List Json}
    {paths : List StaticPath}
    (hidx : (fetchAllBlogs env oracle).1 = .ok blogs)
    (hpaths : getStaticPaths env oracle = .ok paths) :
    List.Forall₂ (fun entry p =>
      p.params_slug = jsFieldToString (getField entry "slug") ∧
      (fetchBlog env oracle p.params_slug).1 = .ok p.props_blog) blogs paths := by
  rw [getStaticPaths, hidx] at hpaths
  have h := promiseAll_ok_forall₂ hpaths
  refine h.imp ?_
  intro entry p hg
  rw [staticPathFor] at hg
  cases hfb : (fetchBlog env oracle (jsFieldToString (getField entry "slug"))).1 with
  | error e => rw [hfb] at hg; cases hg
  | ok b =>
    rw [hfb] at hg
    cases hg
    exact ⟨rfl, hfb⟩

theorem entryOne_slug : jsFieldToString (getField entryOne "slug") = "first-post" := by
  simp [entryOne, getField, List.lookup, jsFieldToString, jsToString]

theorem entryTwo_slug : jsFieldToString (getField entryTwo "slug") = "second-post" := by
  simp [entryTwo, getField, List.lookup, jsFieldToString, jsToString]

theorem goodOracle_index : (fetchAllBlogs exEnv goodOracle).1 = .ok [entryOne, entryTwo] := rfl

theorem goodOracle_paths : getStaticPaths exEnv goodOracle =
    .ok [{ params_slug := "first-post", props_blog := blogOne },
         { params_slug := "second-post", props_blog := blogTwo }] := by
  have hb1 : (fetchBlog exEnv goodOracle "first-post").1 = .ok blogOne := rfl
  have hb2 : (fetchBlog exEnv goodOracle "second-post").1 = .ok blogTwo := rfl
  simp only [getStaticPaths, goodOracle_index, promiseAll, staticPathFor, entryOne_slug,
    entryTwo_slug, hb1, hb2]

/-! ## The claims -/

/-- C2 as stated is false: `getR2BaseUrl` strips only one trailing
slash (`replace(/\/$/, '')` replaces a single match), so the base
`https://cdn.example.com//` — which ends in a separator — and the same
base without that final separator resolve to different request
addresses, and the former still yields a doubled separator. -/
theorem c2_counterexample :
    getR2Url { PUBLIC_R2_BASE_URL := some "https://cdn.example.com//", BASE_URL := "/" }
        "blogs/_index.json" = .ok "https://cdn.example.com//blogs/_index.json" ∧
    getR2Url { PUBLIC_R2_BASE_URL := some "https://cdn.example.com/", BASE_URL := "/" }
        "blogs/_index.json" = .ok "https://cdn.example.com/blogs/_index.json" ∧
    "https://cdn.example.com//blogs/_index.json" ≠
      "https://cdn.example.com/blogs/_index.json" := by
  exact ⟨rfl, rfl, by decide⟩

/-- C2 (amended): `getR2Url` strips exactly one trailing separator from
the configured base, so a base ending in a single `/` and the same base
without it resolve to identical request addresses for every relative
path, and neither form introduces a doubled separator. -/
theorem c2_single_slash_normalization (b path other : String)
    (hb : b ≠ "") (hend : b.data.getLast? ≠ some '/') :
    getR2Url { PUBLIC_R2_BASE_URL := some (b ++ "/"), BASE_URL := other } path =
      .ok (b ++ "/" ++ path) ∧
    getR2Url { PUBLIC_R2_BASE_URL := some b, BASE_URL := other } path =
      .ok (b ++ "/" ++ path) := by
  constructor
  · simp only [getR2Url, getR2BaseUrl, if_neg (append_slash_ne_empty b),
      stripTrailingSlash_append_slash]
  · simp only [getR2Url, getR2BaseUrl, if_neg hb, stripTrailingSlash_eq_self hend]

theorem c2_single_slash_normalization_witness :
    ("https://cdn.example.com" : String) ≠ "" ∧
    ("https://cdn.example.com" : String).data.getLast? ≠ some '/' ∧
    getR2Url { PUBLIC_R2_BASE_URL := some ("https://cdn.example.com" ++ "/"), BASE_URL := "/" }
        "blogs/_index.json" = .ok ("https://cdn.example.com" ++ "/" ++ "blogs/_index.json") ∧
    getR2Url { PUBLIC_R2_BASE_URL := some "https://cdn.example.com", BASE_URL := "/" }
        "blogs/_index.json" = .ok ("https://cdn.example.com" ++ "/" ++ "blogs/_index.json") := by
  refine ⟨by decide, by decide, ?_⟩
  exact c2_single_slash_normalization "https://cdn.example.com" "blogs/_index.json" "/"
    (by decide) (by decide)

/-- C5: the listing page renders exactly one card per element of
`items`, in the same order; it renders zero cards iff `items` is empty,
and exactly then the "No blog posts found." placeholder appears; and a
successful index fetch yields exactly this listing page. -/
theorem c5_listing_page (base : String) (blogs : List Json) :
    (renderListing base blogs).cards = blogs.map (renderCard base) ∧
    (renderListing base blogs).cards.length = blogs.length ∧
    ((renderListing base blogs).cards = [] ↔ blogs = []) ∧
    ((renderListing base blogs).emptyMessage = some "No blog posts found." ↔ blogs = []) ∧
    ∀ (env : Env) (oracle : Oracle),
      (fetchAllBlogs env oracle).1 = .ok blogs →
      indexPage env oracle = .ok (renderListing env.BASE_URL blogs) := by
  refine ⟨rfl, by simp [renderListing], by simp [renderListing], ?_, ?_⟩
  · cases blogs <;> simp [renderListing]
  · intro env oracle h
    simp only [indexPage, h]

theorem c5_listing_page_witness :
    (fetchAllBlogs exEnv goodOracle).1 = .ok [entryOne, entryTwo] ∧
    (renderListing exEnv.BASE_URL [entryOne, entryTwo]).cards.length = 2 ∧
    indexPage exEnv goodOracle = .ok (renderListing exEnv.BASE_URL [entryOne, entryTwo]) := by
  refine ⟨goodOracle_index, (c5_listing_page exEnv.BASE_URL [entryOne, entryTwo]).2.1, ?_⟩
  exact (c5_listing_page exEnv.BASE_URL [entryOne, entryTwo]).2.2.2.2 exEnv goodOracle
    goodOracle_index

/-- C9: with the base address absent or empty, `fetchAllBlogs` and
`fetchBlog` both fail with the configuration error, and the request log
is empty — the failure happens before any network request is issued. -/
theorem c9_config_error_before_network (env : Env) (oracle : Oracle)
    (h : env.PUBLIC_R2_BASE_URL = none ∨ env.PUBLIC_R2_BASE_URL = some "") :
    fetchAllBlogs env oracle =
      (.error (.configError "PUBLIC_R2_BASE_URL environment variable is not set"), []) ∧
    ∀ slug, fetchBlog env oracle slug =
      (.error (.configError "PUBLIC_R2_BASE_URL environment variable is not set"), []) := by
  have hbase : getR2BaseUrl env =
      .error (.configError "PUBLIC_R2_BASE_URL environment variable is not set") := by
    rcases h with h | h <;> simp [getR2BaseUrl, h]
  exact ⟨by simp only [fetchAllBlogs, getR2Url, hbase],
         fun slug => by simp only [fetchBlog, getR2Url, hbase]⟩

theorem c9_config_error_before_network_witness :
    (({ PUBLIC_R2_BASE_URL := none, BASE_URL := "/" } : Env).PUBLIC_R2_BASE_URL = none ∨
      ({ PUBLIC_R2_BASE_URL := none, BASE_URL := "/" } : Env).PUBLIC_R2_BASE_URL = some "") ∧
    fetchAllBlogs { PUBLIC_R2_BASE_URL := none, BASE_URL := "/" } goodOracle =
      (.error (.configError "PUBLIC_R2_BASE_URL environment variable is not set"), []) ∧
    fetchBlog { PUBLIC_R2_BASE_URL := none, BASE_URL := "/" } goodOracle "first-post" =
      (.error (.configError "PUBLIC_R2_BASE_URL environment variable is not set"), []) := by
  refine ⟨Or.inl rfl, ?_, ?_⟩
  · exact (c9_config_error_before_network _ goodOracle (Or.inl rfl)).1
  · exact (c9_config_error_before_network _ goodOracle (Or.inl rfl)).2 "first-post"

theorem getField_eq_some {j : Json} {k : String} {v : Json}
    (h : getField j k = some v) : ∃ fields, j = Json.obj fields := by
  cases j with
  | obj fields => exact ⟨fields, rfl⟩
  | null => simp [getField] at h
  | bool b => simp [getField] at h
  | num n => simp [getField] at h
  | str s => simp [getField] at h
  | arr xs => simp [getField] at h

/-- C7: under a successful, decodable index response, `fetchAllBlogs`
fails with the `FormatError` exactly when the decoded body is not an
object with an array-valued `items` field, and when the field is there
it returns that array itself, unmodified — in particular `total_items`
is never consulted. -/
theorem c7_index_shape (env : Env) (oracle : Oracle) (url : String) (j : Json)
    (hurl : getR2Url env "blogs/_index.json" = .ok url)
    (hok : responseOk (oracle url) = true)
    (hbody : (oracle url).body = some j) :
    (((fetchAllBlogs env oracle).1 = .error (.formatError "Unexpected blog index format")) ↔
      ¬ ∃ fields xs, j = Json.obj fields ∧ getField j "items" = some (Json.arr xs)) ∧
    ∀ xs, getField j "items" = some (Json.arr xs) → (fetchAllBlogs env oracle).1 = .ok xs := by
  have hred : (fetchAllBlogs env oracle).1 =
      (match asArray (getField j "items"), jsTruthy j with
       | some items, true => Except.ok items
       | _, _ => Except.error (.formatError "Unexpected blog index format")) := by
    simp only [fetchAllBlogs, hurl, hok, hbody, Bool.not_true, Bool.false_eq_true,
      if_false]
    cases asArray (getField j "items") <;> cases jsTruthy j <;> rfl
  constructor
  · constructor
    · intro herr hex
      obtain ⟨fields, xs, rfl, hitems⟩ := hex
      rw [hred, hitems] at herr
      simp [asArray, jsTruthy] at herr
    · intro hnot
      rw [hred]
      cases hitems : getField j "items" with
      | none => simp [asArray]
      | some v =>
        cases v with
        | arr xs =>
          obtain ⟨fields, rfl⟩ := getField_eq_some hitems
          exact absurd ⟨fields, xs, rfl, hitems⟩ hnot
        | null => simp [asArray]
        | bool b => simp [asArray]
        | num n => simp [asArray]
        | str s => simp [asArray]
        | obj fields => simp [asArray]
  · intro xs hitems
    obtain ⟨fields, rfl⟩ := getField_eq_some hitems
    rw [hred, hitems]
    rfl

theorem c7_index_shape_witness :
    getR2Url exEnv "blogs/_index.json" = .ok "https://cdn.example.com/blogs/_index.json" ∧
    responseOk (goodOracle "https://cdn.example.com/blogs/_index.json") = true ∧
    (goodOracle "https://cdn.example.com/blogs/_index.json").body = some goodIndex ∧
    getField goodIndex "items" = some (Json.arr [entryOne, entryTwo]) ∧
    getField goodIndex "total_items" = some (Json.num 3) ∧
    (fetchAllBlogs exEnv goodOracle).1 = .ok [entryOne, entryTwo] := by
  refine ⟨rfl, rfl, rfl, by simp [goodIndex, getField, List.lookup],
    by simp [goodIndex, getField, List.lookup], ?_⟩
  exact (c7_index_shape exEnv goodOracle "https://cdn.example.com/blogs/_index.json"
    goodIndex rfl rfl rfl).2 [entryOne, entryTwo]
    (by simp [goodIndex, getField, List.lookup])

/-- C1 is false on the code: `fetchBlog` performs no field validation,
so an item endpoint answering 200 with a JSON object that lacks the
required `body` field yields a successful call returning the incomplete
record, and the generation step completes, emitting that item's detail
page — no `FormatError`, no abort. -/
theorem c1_counterexample :
    (fetchBlog exEnv missingBodyOracle "first-post").1 = .ok entryOne ∧
    getField entryOne "body" = none ∧
    ∃ listing details, buildSite exEnv missingBodyOracle = .ok (listing, details) ∧
      details.length = 1 := by
  have hidx : (fetchAllBlogs exEnv missingBodyOracle).1 = .ok [entryOne] := rfl
  have hb : (fetchBlog exEnv missingBodyOracle "first-post").1 = .ok entryOne := rfl
  have hpaths : getStaticPaths exEnv missingBodyOracle =
      .ok [{ params_slug := "first-post", props_blog := entryOne }] := by
    simp only [getStaticPaths, hidx, promiseAll, staticPathFor, entryOne_slug, hb]
  have hip : indexPage exEnv missingBodyOracle =
      .ok (renderListing exEnv.BASE_URL [entryOne]) := by
    simp only [indexPage, hidx]
  have hbp : blogSlugPages exEnv missingBodyOracle =
      .ok [(detailPagePath exEnv.BASE_URL "first-post",
            renderDetail exEnv.BASE_URL entryOne)] := by
    simp only [blogSlugPages, hpaths, List.map]
  refine ⟨hb, by simp [entryOne, getField, List.lookup],
    renderListing exEnv.BASE_URL [entryOne],
    [(detailPagePath exEnv.BASE_URL "first-post", renderDetail exEnv.BASE_URL entryOne)],
    ?_, rfl⟩
  simp only [buildSite, hip, hbp]

/-- C1 (amended): `fetchBlog` does not validate required fields: for
every successful HTTP response whose body decodes to JSON, the decoded
value is returned unchanged, so a record missing `body` is returned
as-is (and generation proceeds) rather than failing with a
`FormatError`. -/
theorem c1_no_format_check (env : Env) (oracle : Oracle) (slug url : String) (j : Json)
    (hurl : getR2Url env ("blogs/" ++ slug ++ ".json") = .ok url)
    (hok : responseOk (oracle url) = true)
    (hbody : (oracle url).body = some j) :
    (fetchBlog env oracle slug).1 = .ok j := by
  simp only [fetchBlog, hurl, hok, hbody, Bool.not_true, Bool.false_eq_true, if_false]

theorem c1_no_format_check_witness :
    getR2Url exEnv ("blogs/" ++ "first-post" ++ ".json") =
      .ok "https://cdn.example.com/blogs/first-post.json" ∧
    responseOk (missingBodyOracle "https://cdn.example.com/blogs/first-post.json") = true ∧
    (missingBodyOracle "https://cdn.example.com/blogs/first-post.json").body = some entryOne ∧
    (fetchBlog exEnv missingBodyOracle "first-post").1 = .ok entryOne := by
  exact ⟨rfl, rfl, rfl, c1_no_format_check exEnv missingBodyOracle "first-post"
    "https://cdn.example.com/blogs/first-post.json" entryOne rfl rfl rfl⟩

/-- C3 is false on the code: `fetchBlog` never compares the returned
record's `slug` with the requested one.  Requesting
`first-post` from an upstream whose document carries
`slug: "renamed-post"` succeeds and returns the mismatched record. -/
theorem c3_counterexample :
    (fetchBlog exEnv wrongSlugOracle "first-post").1 = .ok renamedBlog ∧
    getField renamedBlog "slug" = some (.str "renamed-post") ∧
    getField renamedBlog "slug" ≠ some (.str "first-post") := by
  refine ⟨rfl, by simp [renamedBlog, getField, List.lookup], ?_⟩
  simp [renamedBlog, getField, List.lookup]

/-- C3 (amended): the slug invariant is inherited from the upstream
data, not enforced: a successful `fetchBlog slug` call returns a record
whose `slug` field equals `slug` exactly when the served document
already carried that value. -/
theorem c3_slug_passthrough (env : Env) (oracle : Oracle) (slug url : String) (j : Json)
    (hurl : getR2Url env ("blogs/" ++ slug ++ ".json") = .ok url)
    (hok : responseOk (oracle url) = true)
    (hbody : (oracle url).body = some j)
    (hslug : getField j "slug" = some (.str slug)) :
    ∃ record, (fetchBlog env oracle slug).1 = .ok record ∧
      getField record "slug" = some (.str slug) := by
  refine ⟨j, ?_, hslug⟩
  simp only [fetchBlog, hurl, hok, hbody, Bool.not_true, Bool.false_eq_true, if_false]

theorem c3_slug_passthrough_witness :
    getR2Url exEnv ("blogs/" ++ "first-post" ++ ".json") =
      .ok "https://cdn.example.com/blogs/first-post.json" ∧
    responseOk (goodOracle "https://cdn.example.com/blogs/first-post.json") = true ∧
    (goodOracle "https://cdn.example.com/blogs/first-post.json").body = some blogOne ∧
    getField blogOne "slug" = some (.str "first-post") ∧
    ∃ record, (fetchBlog exEnv goodOracle "first-post").1 = .ok record ∧
      getField record "slug" = some (.str "first-post") := by
  refine ⟨rfl, rfl, rfl, by simp [blogOne, getField, List.lookup], ?_⟩
  exact c3_slug_passthrough exEnv goodOracle "first-post"
    "https://cdn.example.com/blogs/first-post.json" blogOne rfl rfl rfl
    (by simp [blogOne, getField, List.lookup])

/-- C4: a successful generation run produces exactly one detail page
per index entry — the route parameters, in order, are exactly the index
entries' slugs (hence equal as sets, with cardinality preserved) — and
each page renders its title and body from the `name` and `body` fields
of the record fetched for that slug. -/
theorem c4_one_page_per_slug (env : Env) (oracle : Oracle) (blogs : List Json)
    (paths : List StaticPath)
    (hidx : (fetchAllBlogs env oracle).1 = .ok blogs)
    (hpaths : getStaticPaths env oracle = .ok paths) :
    paths.map (fun p => p.params_slug) =
      blogs.map (fun b => jsFieldToString (getField b "slug")) ∧
    paths.length = blogs.length ∧
    ∀ p ∈ paths,
      (fetchBlog env oracle p.params_slug).1 = .ok p.props_blog ∧
      ∀ base, (renderDetail base p.props_blog).heading =
          renderNode (getField p.props_blog "name") ∧
        (renderDetail base p.props_blog).bodyHtml =
          renderHtml (getField p.props_blog "body") := by
  have h := getStaticPaths_spec hidx hpaths
  refine ⟨forall₂_map_eq (fun x y hxy => hxy.1) h, h.length_eq.symm, ?_⟩
  intro p hp
  obtain ⟨entry, _, hR⟩ := forall₂_mem_right h p hp
  exact ⟨hR.2, fun base => ⟨rfl, rfl⟩⟩

theorem c4_one_page_per_slug_witness :
    (fetchAllBlogs exEnv goodOracle).1 = .ok [entryOne, entryTwo] ∧
    getStaticPaths exEnv goodOracle =
      .ok [{ params_slug := "first-post", props_blog := blogOne },
           { params_slug := "second-post", props_blog := blogTwo }] ∧
    ([{ params_slug := "first-post", props_blog := blogOne },
      { params_slug := "second-post", props_blog := blogTwo }] : List StaticPath).length =
      ([entryOne, entryTwo] : List Json).length := by
  refine ⟨goodOracle_index, goodOracle_paths, ?_⟩
  exact (c4_one_page_per_slug exEnv goodOracle [entryOne, entryTwo] _
    goodOracle_index goodOracle_paths).2.1

theorem fetchAllBlogs_status_error {env : Env} {oracle : Oracle} {url : String}
    (hurl : getR2Url env "blogs/_index.json" = .ok url)
    (hnotok : responseOk (oracle url) = false) :
    (fetchAllBlogs env oracle).1 = .error (.fetchError (oracle url).status
      ("Failed to fetch blog index: " ++ toString (oracle url).status ++ " " ++
        (oracle url).statusText)) := by
  simp only [fetchAllBlogs, hurl, hnotok, Bool.not_false, if_true]

/-- C6: any single failing fetch aborts the whole generation with no
output pages.  First part: an index endpoint answering 404 makes the
build fail with a `FetchError` referencing status 404 (and `buildSite`
yields no page set).  Second part: a failing fetch of any one item in
the index aborts the whole step — no partial page set is emitted. -/
theorem c6_failure_aborts :
    (∀ (env : Env) (oracle : Oracle) (url : String),
      getR2Url env "blogs/_index.json" = .ok url →
      (oracle url).status = 404 →
      ∃ msg, buildSite env oracle = .error (.fetchError 404 msg)) ∧
    (∀ (env : Env) (oracle : Oracle) (blogs : List Json) (entry : Json) (e : Err),
      (fetchAllBlogs env oracle).1 = .ok blogs →
      entry ∈ blogs →
      (fetchBlog env oracle (jsFieldToString (getField entry "slug"))).1 = .error e →
      ∃ failure, buildSite env oracle = .error failure) := by
  constructor
  · intro env oracle url hurl h404
    have hnotok : responseOk (oracle url) = false := by
      simp [responseOk, h404]
    have hfb := fetchAllBlogs_status_error hurl hnotok
    rw [h404] at hfb
    refine ⟨"Failed to fetch blog index: " ++ toString (404 : Nat) ++ " " ++
      (oracle url).statusText, ?_⟩
    have hip : indexPage env oracle = .error (.fetchError 404
        ("Failed to fetch blog index: " ++ toString (404 : Nat) ++ " " ++
          (oracle url).statusText)) := by
      simp only [indexPage, hfb]
    have hgsp : getStaticPaths env oracle = .error (.fetchError 404
        ("Failed to fetch blog index: " ++ toString (404 : Nat) ++ " " ++
          (oracle url).statusText)) := by
      simp only [getStaticPaths, hfb]
    have hbp : blogSlugPages env oracle = .error (.fetchError 404
        ("Failed to fetch blog index: " ++ toString (404 : Nat) ++ " " ++
          (oracle url).statusText)) := by
      simp only [blogSlugPages, hgsp]
    simp only [buildSite, hip, hbp]
  · intro env oracle blogs entry e hidx hmem hfb
    have hg : staticPathFor env oracle entry = .error e := by
      simp only [staticPathFor, hfb]
    obtain ⟨e', he'⟩ := promiseAll_error_of_mem hmem hg
    have hgsp : getStaticPaths env oracle = .error e' := by
      simp only [getStaticPaths, hidx, he']
    have hip : indexPage env oracle = .ok (renderListing env.BASE_URL blogs) := by
      simp only [indexPage, hidx]
    have hbp : blogSlugPages env oracle = .error e' := by
      simp only [blogSlugPages, hgsp]
    exact ⟨e', by simp only [buildSite, hip, hbp]⟩

theorem c6_failure_aborts_witness :
    getR2Url exEnv "blogs/_index.json" = .ok "https://cdn.example.com/blogs/_index.json" ∧
    (allNotFoundOracle "https://cdn.example.com/blogs/_index.json").status = 404 ∧
    (∃ msg, buildSite exEnv allNotFoundOracle = .error (.fetchError 404 msg)) ∧
    (fetchAllBlogs exEnv missingItemOracle).1 = .ok [entryOne, entryTwo] ∧
    (∃ failure, buildSite exEnv missingItemOracle = .error failure) := by
  have hfb : (fetchBlog exEnv missingItemOracle
      (jsFieldToString (getField entryOne "slug"))).1 =
      .error (.fetchError 404 "Failed to fetch blog \"first-post\": 404 Not Found") := by
    rw [entryOne_slug]
    rfl
  refine ⟨rfl, rfl, ?_, rfl, ?_⟩
  · exact c6_failure_aborts.1 exEnv allNotFoundOracle
      "https://cdn.example.com/blogs/_index.json" rfl rfl
  · exact c6_failure_aborts.2 exEnv missingItemOracle [entryOne, entryTwo] entryOne
      (.fetchError 404 "Failed to fetch blog \"first-post\": 404 Not Found") rfl
      (List.mem_cons_self _ _) hfb

/-- C8: the link path emitted for a slug on the listing page (both the
title link and the "Read more" link, which are the same pure function
of the slug and the deployment base prefix) equals the address at which
that slug's detail page is emitted, pairwise across the whole build;
and on every detail page the header link and the back-to-listing link
both resolve to the listing page's own address. -/
theorem c8_link_consistency (env : Env) (oracle : Oracle) (blogs : List Json)
    (paths : List StaticPath) (pages : List (String × DetailPage))
    (hidx : (fetchAllBlogs env oracle).1 = .ok blogs)
    (hpaths : getStaticPaths env oracle = .ok paths)
    (hpages : blogSlugPages env oracle = .ok pages) :
    (∀ blog, (renderCard env.BASE_URL blog).titleHref =
        detailPagePath env.BASE_URL (jsFieldToString (getField blog "slug")) ∧
      (renderCard env.BASE_URL blog).readMoreHref =
        detailPagePath env.BASE_URL (jsFieldToString (getField blog "slug"))) ∧
    List.Forall₂ (fun b pg => (renderCard env.BASE_URL b).titleHref = pg.1 ∧
      (renderCard env.BASE_URL b).readMoreHref = pg.1) blogs pages ∧
    ∀ pg ∈ pages, pg.2.backHref = listingPagePath env.BASE_URL ∧
      pg.2.headerHomeHref = listingPagePath env.BASE_URL := by
  have h := getStaticPaths_spec hidx hpaths
  rw [blogSlugPages, hpaths] at hpages
  injection hpages with hp
  subst hp
  refine ⟨fun blog => ⟨rfl, rfl⟩, ?_, ?_⟩
  · rw [List.forall₂_map_right_iff]
    refine h.imp ?_
    intro entry p hR
    constructor
    · show (renderCard env.BASE_URL entry).titleHref =
        detailPagePath env.BASE_URL p.params_slug
      rw [hR.1]
      rfl
    · show (renderCard env.BASE_URL entry).readMoreHref =
        detailPagePath env.BASE_URL p.params_slug
      rw [hR.1]
      rfl
  · intro pg hpg
    obtain ⟨p, _, rfl⟩ := List.mem_map.mp hpg
    exact ⟨rfl, rfl⟩

theorem c8_link_consistency_witness :
    (fetchAllBlogs exEnv goodOracle).1 = .ok [entryOne, entryTwo] ∧
    getStaticPaths exEnv goodOracle =
      .ok [{ params_slug := "first-post", props_blog := blogOne },
           { params_slug := "second-post", props_blog := blogTwo }] ∧
    (renderCard exEnv.BASE_URL entryOne).titleHref =
      detailPagePath exEnv.BASE_URL (jsFieldToString (getField entryOne "slug")) ∧
    (renderDetail exEnv.BASE_URL blogOne).backHref = listingPagePath exEnv.BASE_URL := by
  have hpages : blogSlugPages exEnv goodOracle =
      .ok [(detailPagePath exEnv.BASE_URL "first-post", renderDetail exEnv.BASE_URL blogOne),
           (detailPagePath exEnv.BASE_URL "second-post", renderDetail exEnv.BASE_URL blogTwo)] := by
    simp only [blogSlugPages, goodOracle_paths, List.map]
  have h := c8_link_consistency exEnv goodOracle [entryOne, entryTwo] _ _
    goodOracle_index goodOracle_paths hpages
  refine ⟨goodOracle_index, goodOracle_paths, (h.1 entryOne).1, ?_⟩
  exact (h.2.2 (detailPagePath exEnv.BASE_URL "first-post",
    renderDetail exEnv.BASE_URL blogOne) (List.mem_cons_self _ _)).1

/-- C10: when the category index decodes to a list of slugs,
`fetchAllCategories` returns exactly one category per slug, in the same
order as the slugs appear in the index: the results are pairwise the
values `fetchCategory` returns for the corresponding slug, and the
cardinality matches. -/
theorem c10_categories_in_order (env : Env) (oracle : Oracle) (slugs : List Json)
    (cats : List Json)
    (hidx : fetchCategoryIndex env oracle = .ok (.arr slugs))
    (hcats : fetchAllCategories env oracle = .ok cats) :
    cats.length = slugs.length ∧
    List.Forall₂ (fun s c => fetchCategory env oracle (jsToString s) = .ok c) slugs cats := by
  rw [fetchAllCategories, hidx] at hcats
  have h := promiseAll_ok_forall₂ hcats
  exact ⟨h.length_eq.symm, h⟩

theorem c10_categories_in_order_witness :
    fetchCategoryIndex exEnv goodOracle = .ok (.arr [.str "tech", .str "life"]) ∧
    fetchAllCategories exEnv goodOracle = .ok [catTech, catLife] ∧
    ([catTech, catLife] : List Json).length = ([.str "tech", .str "life"] : List Json).length := by
  have hidx : fetchCategoryIndex exEnv goodOracle = .ok (.arr [.str "tech", .str "life"]) := rfl
  have ht : jsToString (Json.str "tech") = "tech" := by simp [jsToString]
  have hl : jsToString (Json.str "life") = "life" := by simp [jsToString]
  have hct : fetchCategory exEnv goodOracle "tech" = .ok catTech := rfl
  have hcl : fetchCategory exEnv goodOracle "life" = .ok catLife := rfl
  have hcats : fetchAllCategories exEnv goodOracle = .ok [catTech, catLife] := by
    simp only [fetchAllCategories, hidx, promiseAll, ht, hl, hct, hcl]
  refine ⟨hidx, hcats, ?_⟩
  exact (c10_categories_in_order exEnv goodOracle [.str "tech", .str "life"]
    [catTech, catLife] hidx hcats).1

end AstroBlog
